import Mathlib

/-!
Verification of the numerox thin adapter layer.

This file shallowly embeds the two source modules of the repository,
`numerox/util.py` and `numerox/model.py`, and proves the stated
properties of the tournament registry, the type predicates, and the
model-adapter contract (`fit_predict`, `hash`, `__repr__`).

Conventions of the embedding:
* Python functions that can raise become `Except String α`; the string is
  the exception message from the source.
* Python ints are `Int`; numpy float arrays are lists of `ℚ` (the only
  float arithmetic the claims touch, `0.5 * 1.0`, is exact in binary64,
  so rationals represent it faithfully).
* Python dicts that are only iterated become association lists in
  insertion order (CPython 3.7+ semantics).
-/

namespace Numerox

/-! ### util.py: the tournament registry -/

/-- `TOURNAMENT_NAMES = ['bernie', 'elizabeth', 'jordan', 'ken', 'charles']` -/
def TOURNAMENT_NAMES : List String :=
  ["bernie", "elizabeth", "jordan", "ken", "charles"]

/-- `tournament_int2str`: bounds-check the integer, then index the name
list at `tournament_int - 1`.  The out-of-range list index of Python
(`IndexError`) is kept as an explicit error branch so that its
unreachability can be proved rather than assumed. -/
def tournament_int2str (tournament_int : Int) : Except String String :=
  if tournament_int < 1 then
    Except.error "`tournament_int` must be greater than 0"
  else if tournament_int > 5 then
    Except.error "`tournament_int` must be less than 6"
  else
    match TOURNAMENT_NAMES.get? (tournament_int - 1).toNat with
    | some s => Except.ok s
    | none => Except.error "IndexError"

/-- `tournament_str2int`: membership-check the name, then
`TOURNAMENT_NAMES.index(name) + 1`. -/
def tournament_str2int (tournament_str : String) : Except String Int :=
  if ¬ (TOURNAMENT_NAMES.contains tournament_str) then
    Except.error "`tournament_str` name not recognized"
  else
    Except.ok ((TOURNAMENT_NAMES.indexOf tournament_str : Nat) + 1)

/-- `tournament_iter`: the generator `for t in range(1, 6): yield t,
tournament_int2str(t)`.  Each call of the generator function produces a
fresh generator, modelled by the `Unit` argument; a raise inside the body
would abort the whole sequence, modelled by sequencing in `Except`. -/
def tournament_iter (_ : Unit) : Except String (List (Int × String)) :=
  (List.range' 1 5).mapM fun t =>
    (tournament_int2str (t : Int)).map fun s => ((t : Int), s)

/-! ### util.py: the `isint` type predicate

`isint(x)` is `np.issubdtype(type(x), np.signedinteger)`.  We embed the
fragment of numpy's abstract dtype hierarchy that the reachable Python
types map into, with `issubdtype` computed by walking the parent chain. -/

/-- The relevant nodes of numpy's scalar-type hierarchy. -/
inductive NpType where
  | npgeneric
  | npnumber
  | npinteger
  | npsignedinteger
  | npint32
  | npint64
  | npinexact
  | npfloating
  | npfloat32
  | npfloat64
  | npcomplexfloating
  | npcomplex128
  | npbool
  | npflexible
  | npcharacter
  | npstr
  deriving DecidableEq, Repr

/-- Parent links of numpy's abstract hierarchy
(`signedinteger < integer < number < generic`, etc.). -/
def NpType.parent : NpType → Option NpType
  | .npgeneric => none
  | .npnumber => some .npgeneric
  | .npinteger => some .npnumber
  | .npsignedinteger => some .npinteger
  | .npint32 => some .npsignedinteger
  | .npint64 => some .npsignedinteger
  | .npinexact => some .npnumber
  | .npfloating => some .npinexact
  | .npfloat32 => some .npfloating
  | .npfloat64 => some .npfloating
  | .npcomplexfloating => some .npinexact
  | .npcomplex128 => some .npcomplexfloating
  | .npbool => some .npgeneric
  | .npflexible => some .npgeneric
  | .npcharacter => some .npflexible
  | .npstr => some .npcharacter

/-- The chain of a type and its ancestors (fuel-bounded; the hierarchy has
depth at most 5). -/
def NpType.ancestors : Nat → NpType → List NpType
  | 0, t => [t]
  | n + 1, t =>
    t :: (match t.parent with
          | some p => NpType.ancestors n p
          | none => [])

/-- `np.issubdtype a b`: `b` is `a` or an ancestor of `a`. -/
def issubdtype (a b : NpType) : Bool :=
  (NpType.ancestors 8 a).contains b

/-- The Python values `isint` is documented on.  Floats are carried by a
rational stand-in for the IEEE value; the payload never affects the type
dispatch that `isint` performs. -/
inductive PyVal where
  | vint (n : Int)
  | vnpint32 (n : Int)
  | vnpint64 (n : Int)
  | vfloat (q : ℚ)
  | vnpfloat32 (q : ℚ)
  | vnpfloat64 (q : ℚ)
  | vcomplex (re im : ℚ)
  | vstr (s : String)
  | vbool (b : Bool)
  deriving Repr

/-- `type(x)` followed by numpy's coercion of a Python type to a dtype
node: `int ↦ np.int_` (signed), `bool ↦ np.bool_`, `float ↦ np.float64`,
`complex ↦ np.complex128`, `str ↦ np.str_`. -/
def PyVal.nptype : PyVal → NpType
  | .vint _ => .npint64
  | .vnpint32 _ => .npint32
  | .vnpint64 _ => .npint64
  | .vfloat _ => .npfloat64
  | .vnpfloat32 _ => .npfloat32
  | .vnpfloat64 _ => .npfloat64
  | .vcomplex _ _ => .npcomplex128
  | .vstr _ => .npstr
  | .vbool _ => .npbool

/-- `isint(x) = np.issubdtype(type(x), np.signedinteger)`. -/
def isint (x : PyVal) : Bool :=
  issubdtype x.nptype .npsignedinteger

/-! ### model.py: the dataset collaborator

The `Data` class lives outside the two source modules; the model layer
uses only the boundary the spec states. -/

/-- Modelled from the spec: the external `Data` collaborator (the class is
not among the source files).  It "must expose `.x` (feature matrix), `.y`
(label vector), `.ids` (identifier sequence), `.hash()` (content
fingerprint), and support length queries", with identifiers per row. -/
structure Data where
  ids : List String
  x : List (List ℚ)
  y : List ℚ

/-- Modelled from the spec: `len(data)` is the number of rows, one
identifier per row. -/
def Data.len (d : Data) : Nat := d.ids.length

/-- Modelled from the spec: the external estimator contract — "a training
operation taking features and labels, and a probability-prediction
operation returning a per-class score matrix from which the positive-class
column is extracted".  `fitPredictProbaPos trainX trainY testX` is
`estimator.fit(trainX, trainY).predict_proba(testX)[:, 1]`. -/
structure SkEstimator where
  fitPredictProbaPos : List (List ℚ) → List ℚ → List (List ℚ) → List ℚ

/-! ### model.py: the concrete adapters' `fit_predict`

Each sklearn-backed adapter builds one external estimator from its
parameters, fits it on `dfit.x, dfit.y`, takes the positive-class
probability column on `dpre.x`, and returns `(dpre.ids, yhat)`.  The
constructed estimator is the `est` argument. -/

/-- `logistic.fit_predict` (model.py lines 84–88). -/
def logistic.fit_predict (est : SkEstimator) (dfit dpre : Data) :
    List String × List ℚ :=
  (dpre.ids, est.fitPredictProbaPos dfit.x dfit.y dpre.x)

/-- `extratrees.fit_predict` (model.py lines 99–108). -/
def extratrees.fit_predict (est : SkEstimator) (dfit dpre : Data) :
    List String × List ℚ :=
  (dpre.ids, est.fitPredictProbaPos dfit.x dfit.y dpre.x)

/-- `randomforest.fit_predict` (model.py lines 119–128). -/
def randomforest.fit_predict (est : SkEstimator) (dfit dpre : Data) :
    List String × List ℚ :=
  (dpre.ids, est.fitPredictProbaPos dfit.x dfit.y dpre.x)

/-- `xgboost.fit_predict` (model.py lines 143–152). -/
def xgboost.fit_predict (est : SkEstimator) (dfit dpre : Data) :
    List String × List ℚ :=
  (dpre.ids, est.fitPredictProbaPos dfit.x dfit.y dpre.x)

/-- `logisticPCA.fit_predict` (model.py lines 162–167); the pipeline of
projection and classifier is one fitted external estimator. -/
def logisticPCA.fit_predict (est : SkEstimator) (dfit dpre : Data) :
    List String × List ℚ :=
  (dpre.ids, est.fitPredictProbaPos dfit.x dfit.y dpre.x)

/-- `np.ones(n)`: an array of `n` ones. -/
def npOnes (n : Nat) : List ℚ := List.replicate n 1

/-- Scalar-times-array broadcasting `c * v`. -/
def npScalarMul (c : ℚ) (v : List ℚ) : List ℚ := v.map (fun q => c * q)

/-- `fifty.fit_predict`: `yhat = 0.5 * np.ones(len(dpre)); return
dpre.ids, yhat`.  (`0.5 * 1.0` is exact in binary64, so the rational
embedding computes the same values.) -/
def fifty.fit_predict (dfit dpre : Data) : List String × List ℚ :=
  (dpre.ids, npScalarMul (1/2) (npOnes dpre.len))

/-! ### model.py: `xgboost.__init__` and the optional dependency -/

/-- The parameter dictionary that `xgboost.__init__` stores in `self.p`. -/
structure XgbParams where
  learning_rate : ℚ
  subsample : ℚ
  max_depth : Int
  n_estimators : Int
  seed : Int
  deriving DecidableEq, Repr

/-- `xgboost.__init__`: store the parameters, then raise `ImportError`
when `HAS_XGBOOST` is false.  `hasXgboost` is the module-level
`HAS_XGBOOST` flag set by the guarded import. -/
def xgboost.init (hasXgboost : Bool) (learning_rate subsample : ℚ)
    (max_depth n_estimators seed : Int) : Except String XgbParams :=
  let p : XgbParams :=
    { learning_rate := learning_rate
      subsample := subsample
      max_depth := max_depth
      n_estimators := n_estimators
      seed := seed }
  if !hasXgboost then
    Except.error "You must install xgboost to use this model"
  else
    Except.ok p

/-! ### model.py: `Model.hash`

The method builds the tuple
`h = (dfit.hash(), dpre.hash(), class name[, json.dumps(p, sort_keys=True)])`
and returns `hash(h)`.  CPython's tuple hash (the xxHash-based algorithm
of `tupleobject.c`) combines the element hashes; an int element is hashed
by reduction modulo the Mersenne prime `2^61 - 1` (`pyhash.c`), and a
string element by the process's randomized string hash, which we keep as
a parameter `strHash`. -/

/-- CPython `hash` of an int: reduce the absolute value modulo
`2^61 - 1`, reapply the sign, and map the reserved value `-1` to `-2`. -/
def pyHashInt (n : Int) : Int :=
  let M : Int := 2 ^ 61 - 1
  let r := if 0 ≤ n then n % M else -((-n) % M)
  if r = -1 then -2 else r

/-- CPython `hash` of a tuple, given the element hashes (64-bit
`tupleobject.c` algorithm): fold each lane with the xxPrime constants,
rotate by 31, close with the length, and map `-1` to the substitute. -/
def pyHashTuple (hs : List Int) : Int :=
  let M : Nat := 2 ^ 64
  let P1 : Nat := 11400714785074694791
  let P2 : Nat := 14029467366897019727
  let P5 : Nat := 2870177450012600261
  let rotl31 : Nat → Nat := fun x => ((x <<< 31) % M) ||| (x >>> 33)
  let lane : Int → Nat := fun h => (h % (M : Int)).toNat
  let acc : Nat := hs.foldl
    (fun acc h => ((rotl31 ((acc + lane h * P2) % M)) * P1) % M) P5
  let acc : Nat := (acc + (hs.length ^^^ (P5 ^^^ 3527539))) % M
  let signed : Int := if acc < 2 ^ 63 then (acc : Int) else (acc : Int) - M
  if signed = -1 then 1546275796 else signed

/-- What distinguishes one adapter instance in `Model.hash` and
`Model.__repr__` besides the datasets: the class name and, when the
instance has a `p` attribute, the serialized parameter dictionary
`json.dumps(self.p, sort_keys=True)`. -/
structure ModelId where
  className : String
  pdump : Option String
  deriving DecidableEq, Repr

/-- The tuple `h` that `Model.hash` builds before applying `hash`. -/
def Model.hashInput (dfitHash dpreHash : Int) (m : ModelId) :
    Int × Int × String × Option String :=
  (dfitHash, dpreHash, m.className, m.pdump)

/-- `Model.hash(dfit, dpre)`: hash the tuple of the two dataset hashes,
the class name, and (when present) the parameter dump.  `strHash` is the
process's string hash. -/
def Model.hash (strHash : String → Int) (dfitHash dpreHash : Int)
    (m : ModelId) : Int :=
  pyHashTuple
    ([pyHashInt dfitHash, pyHashInt dpreHash, strHash m.className] ++
      (match m.pdump with
       | some s => [strHash s]
       | none => []))

/-! ### model.py: `Model.__repr__`

`__repr__` renders `ClassName(name=value, name=value)` by appending
`name + "=" + str(value) + ", "` for each entry of `self.p` **in the
dictionary's iteration order** (insertion order on CPython 3.7+), then
slicing off the trailing two characters with `msg[:-2]`. -/

/-- A parameter value as `__repr__` sees it.  The adapters store ints and
floats; a float is carried by its `str()` decimal rendering, which is all
`__repr__` uses of it. -/
inductive PyScalar where
  | pint (n : Int)
  | pfloat (s : String)
  deriving DecidableEq, Repr

/-- Python `str(value)` for a parameter value. -/
def PyScalar.pyStr : PyScalar → String
  | .pint n => toString n
  | .pfloat s => s

/-- An adapter as `__repr__` sees it: the class name and, when the
instance has a `p` attribute, the parameter dictionary as an association
list in insertion order. -/
structure PyModel where
  className : String
  p : Option (List (String × PyScalar))

/-- Python `msg[:-2]`: drop the last two characters. -/
def pySliceMinus2 (msg : String) : String :=
  String.mk msg.data.dropLast.dropLast

/-- `Model.__repr__` (model.py lines 62–76). -/
def PyModel.reprStr (m : PyModel) : String :=
  match m.p with
  | none => m.className ++ "()"
  | some ps =>
    if ps.length = 0 then
      m.className ++ "()"
    else
      let msg := m.className ++ "("
      let msg := ps.foldl
        (fun acc nv => acc ++ nv.1 ++ "=" ++ nv.2.pyStr ++ ", ") msg
      let msg := pySliceMinus2 msg
      msg ++ ")"

/-- Insertion sort of parameter entries by name, using string order. -/
def insertByName (x : String × PyScalar) :
    List (String × PyScalar) → List (String × PyScalar)
  | [] => [x]
  | y :: ys =>
    match compare x.1 y.1 with
    | .gt => y :: insertByName x ys
    | _ => x :: y :: ys

/-- Sort parameter entries by name. -/
def sortByName (ps : List (String × PyScalar)) :
    List (String × PyScalar) :=
  ps.foldr insertByName []

/-- `", "`-separated join. -/
def joinSep : List String → String
  | [] => ""
  | [x] => x
  | x :: y :: ys => x ++ ", " ++ joinSep (y :: ys)

/-- The spec's rendering of one parameter assignment. -/
def renderAssign (nv : String × PyScalar) : String :=
  nv.1 ++ "=" ++ nv.2.pyStr

/-- Modelled from the spec's words, for comparison with the code's
`PyModel.reprStr`: "renders class name plus sorted parameter assignments"
— the assignments listed with the parameter names in sorted order. -/
def PyModel.reprSortedSpec (m : PyModel) : String :=
  match m.p with
  | none => m.className ++ "()"
  | some ps =>
    if ps.length = 0 then
      m.className ++ "()"
    else
      m.className ++ "(" ++ joinSep ((sortByName ps).map renderAssign) ++ ")"

/-- The rendering the code actually produces: the assignments in the
dictionary's insertion order. -/
def PyModel.reprInsertionOrder (m : PyModel) : String :=
  match m.p with
  | none => m.className ++ "()"
  | some ps =>
    if ps.length = 0 then
      m.className ++ "()"
    else
      m.className ++ "(" ++ joinSep (ps.map renderAssign) ++ ")"

/-- The `extratrees` adapter with its default parameters, in the insertion
order of `extratrees.__init__` (model.py lines 93–97). -/
def extratreesDefault : PyModel :=
  { className := "extratrees"
    p := some [("ntrees", .pint 100), ("depth", .pint 3),
               ("nfeatures", .pint 7), ("seed", .pint 0)] }

/-! ## Theorems -/

/-- C1: for each of the five registered tournament names,
`tournament_str2int` followed by `tournament_int2str` returns the
original name, and for every id in 1..5, `tournament_int2str` followed by
`tournament_str2int` returns the original id: the two conversions are
mutually inverse bijections between the five names and the ids 1–5. -/
theorem tournament_conversion_roundtrip :
    (∀ name ∈ TOURNAMENT_NAMES,
      (tournament_str2int name).bind tournament_int2str = Except.ok name) ∧
    (∀ i : Int, 1 ≤ i → i ≤ 5 →
      (tournament_int2str i).bind tournament_str2int = Except.ok i) := by
  constructor
  · intro name h
    fin_cases h <;> rfl
  · intro i h1 h5
    interval_cases i <;> rfl

/-- Witness for C1 at the name `"bernie"` and the id `3`. -/
theorem tournament_conversion_roundtrip_witness :
    (tournament_str2int "bernie").bind tournament_int2str =
      Except.ok "bernie" ∧
    (tournament_int2str 3).bind tournament_str2int = Except.ok 3 :=
  ⟨tournament_conversion_roundtrip.1 "bernie" (by decide),
   tournament_conversion_roundtrip.2 3 (by decide) (by decide)⟩

/-- C2: `tournament_int2str` returns a domain error exactly when its
argument lies outside `[1, 5]` — in particular it fails at `0` and at `6`
— and `tournament_str2int` returns a domain error exactly when its
argument is not one of the five registered names. -/
theorem tournament_conversion_domain :
    (∀ i : Int, (tournament_int2str i).isOk = true ↔ 1 ≤ i ∧ i ≤ 5) ∧
    (∀ s : String,
      (tournament_str2int s).isOk = true ↔ s ∈ TOURNAMENT_NAMES) ∧
    (tournament_int2str 0).isOk = false ∧
    (tournament_int2str 6).isOk = false := by
  refine ⟨fun i => ?_, fun s => ?_, rfl, rfl⟩
  · unfold tournament_int2str
    split_ifs with h1 h5
    · simp only [Except.isOk]
      constructor
      · intro hc; cases hc
      · intro hc; omega
    · simp only [Except.isOk]
      constructor
      · intro hc; cases hc
      · intro hc; omega
    · have hi1 : 1 ≤ i := by omega
      have hi5 : i ≤ 5 := by omega
      interval_cases i <;>
        simp [TOURNAMENT_NAMES, Except.isOk, Except.toBool]
  · unfold tournament_str2int
    by_cases hmem : s ∈ TOURNAMENT_NAMES
    · rw [if_neg (not_not_intro (List.elem_iff.mpr hmem))]
      simp [Except.isOk, Except.toBool, hmem]
    · rw [if_pos (fun hc => hmem (List.elem_iff.mp hc))]
      simp [Except.isOk, Except.toBool, hmem]

/-- Witness for C2 at the id `2` and the name `"ken"`. -/
theorem tournament_conversion_domain_witness :
    ((tournament_int2str 2).isOk = true ↔ 1 ≤ (2 : Int) ∧ (2 : Int) ≤ 5) ∧
    ((tournament_str2int "ken").isOk = true ↔ "ken" ∈ TOURNAMENT_NAMES) :=
  ⟨tournament_conversion_domain.1 2, tournament_conversion_domain.2.1 "ken"⟩

/-- C3: `tournament_iter` yields exactly the five pairs `(1, "bernie")`,
`(2, "elizabeth")`, `(3, "jordan")`, `(4, "ken")`, `(5, "charles")` in
ascending id order and stops; invoking the generator a second time yields
the same five-pair sequence. -/
theorem tournament_iter_pairs :
    tournament_iter () =
      Except.ok [(1, "bernie"), (2, "elizabeth"), (3, "jordan"),
                 (4, "ken"), (5, "charles")] ∧
    tournament_iter () = tournament_iter () :=
  ⟨rfl, rfl⟩

/-- C10: once the two bounds checks of `tournament_int2str` have passed
(`1 ≤ i ≤ 5`), the index `i - 1` is within the bounds of the five-element
name list, so the lookup cannot hit the `IndexError` branch and returns
one of the five registered names. -/
theorem tournament_int2str_index_in_bounds :
    ∀ i : Int, 1 ≤ i → i ≤ 5 →
      (i - 1).toNat < TOURNAMENT_NAMES.length ∧
      ∃ s, tournament_int2str i = Except.ok s ∧ s ∈ TOURNAMENT_NAMES := by
  intro i h1 h5
  refine ⟨by simp [TOURNAMENT_NAMES]; omega, ?_⟩
  interval_cases i
  · exact ⟨"bernie", rfl, by decide⟩
  · exact ⟨"elizabeth", rfl, by decide⟩
  · exact ⟨"jordan", rfl, by decide⟩
  · exact ⟨"ken", rfl, by decide⟩
  · exact ⟨"charles", rfl, by decide⟩

/-- Witness for C10 at the id `4`. -/
theorem tournament_int2str_index_in_bounds_witness :
    ((4 : Int) - 1).toNat < TOURNAMENT_NAMES.length ∧
    ∃ s, tournament_int2str 4 = Except.ok s ∧ s ∈ TOURNAMENT_NAMES :=
  tournament_int2str_index_in_bounds 4 (by decide) (by decide)

/-- C6: `isint` returns `true` exactly for values of native or
fixed-width signed-integer type, and `false` for booleans, floats,
complex numbers, and strings; in particular `isint(1)` is true while
`isint(1.1)`, `isint(True)`, `isint(1j)` and `isint("a")` are false. -/
theorem isint_signed_integers_only :
    (∀ v : PyVal, isint v = true ↔
      ((∃ n, v = PyVal.vint n) ∨ (∃ n, v = PyVal.vnpint32 n) ∨
        (∃ n, v = PyVal.vnpint64 n))) ∧
    isint (PyVal.vint 1) = true ∧
    isint (PyVal.vfloat (11 / 10)) = false ∧
    isint (PyVal.vbool true) = false ∧
    isint (PyVal.vcomplex 0 1) = false ∧
    isint (PyVal.vstr "a") = false := by
  refine ⟨fun v => ?_, rfl, rfl, rfl, rfl, rfl⟩
  cases v <;> simp [isint, issubdtype, PyVal.nptype, NpType.ancestors,
    NpType.parent]

/-- C4: for the constant-baseline adapter `fifty`, every element of the
prediction array returned by `fit_predict` equals exactly `0.5`, for
every fit dataset and every predict dataset. -/
theorem fifty_predictions_all_half :
    ∀ (dfit dpre : Data) (q : ℚ),
      q ∈ (fifty.fit_predict dfit dpre).2 → q = 1 / 2 := by
  intro dfit dpre q hq
  simp only [fifty.fit_predict, npScalarMul, npOnes, List.mem_map] at hq
  obtain ⟨a, ha, rfl⟩ := hq
  rw [List.eq_of_mem_replicate ha, mul_one]

/-- Witness for C4: a one-row predict dataset, whose single prediction is
`1/2`. -/
theorem fifty_predictions_all_half_witness :
    (1 / 2 : ℚ) ∈ (fifty.fit_predict ⟨["a"], [[0]], [0]⟩
      ⟨["b"], [[1]], [1]⟩).2 ∧ (1 / 2 : ℚ) = 1 / 2 :=
  ⟨by simp [fifty.fit_predict, npScalarMul, npOnes, Data.len],
   fifty_predictions_all_half ⟨["a"], [[0]], [0]⟩ ⟨["b"], [[1]], [1]⟩
     (1 / 2) (by simp [fifty.fit_predict, npScalarMul, npOnes, Data.len])⟩

/-- C5: for every adapter, whenever the external estimator meets its
contract (one positive-class score per test row) and the predict dataset
is well formed (one feature row per identifier), `fit_predict` returns an
ids array and a predictions array of equal length, both of length
`len(predict_data)`, and the ids array is `predict_data`'s identifier
sequence in its native row order. -/
theorem fit_predict_alignment :
    ∀ (est : SkEstimator) (dfit dpre : Data),
      (∀ fx fy px, (est.fitPredictProbaPos fx fy px).length = px.length) →
      dpre.x.length = dpre.ids.length →
      ((logistic.fit_predict est dfit dpre).1.length = dpre.len ∧
        (logistic.fit_predict est dfit dpre).2.length = dpre.len ∧
        (logistic.fit_predict est dfit dpre).1 = dpre.ids) ∧
      ((extratrees.fit_predict est dfit dpre).1.length = dpre.len ∧
        (extratrees.fit_predict est dfit dpre).2.length = dpre.len ∧
        (extratrees.fit_predict est dfit dpre).1 = dpre.ids) ∧
      ((randomforest.fit_predict est dfit dpre).1.length = dpre.len ∧
        (randomforest.fit_predict est dfit dpre).2.length = dpre.len ∧
        (randomforest.fit_predict est dfit dpre).1 = dpre.ids) ∧
      ((xgboost.fit_predict est dfit dpre).1.length = dpre.len ∧
        (xgboost.fit_predict est dfit dpre).2.length = dpre.len ∧
        (xgboost.fit_predict est dfit dpre).1 = dpre.ids) ∧
      ((logisticPCA.fit_predict est dfit dpre).1.length = dpre.len ∧
        (logisticPCA.fit_predict est dfit dpre).2.length = dpre.len ∧
        (logisticPCA.fit_predict est dfit dpre).1 = dpre.ids) ∧
      ((fifty.fit_predict dfit dpre).1.length = dpre.len ∧
        (fifty.fit_predict dfit dpre).2.length = dpre.len ∧
        (fifty.fit_predict dfit dpre).1 = dpre.ids) := by
  intro est dfit dpre hEst hD
  refine ⟨⟨rfl, ?_, rfl⟩, ⟨rfl, ?_, rfl⟩, ⟨rfl, ?_, rfl⟩, ⟨rfl, ?_, rfl⟩,
    ⟨rfl, ?_, rfl⟩, ⟨rfl, ?_, rfl⟩⟩ <;>
  simp [logistic.fit_predict, extratrees.fit_predict,
    randomforest.fit_predict, xgboost.fit_predict, logisticPCA.fit_predict,
    fifty.fit_predict, npScalarMul, npOnes, Data.len, hEst, hD]

/-- A trivially contract-satisfying estimator for the C5 witness. -/
def wEst : SkEstimator :=
  ⟨fun _ _ px => px.map (fun _ => 0)⟩

/-- A two-row fit dataset for the C5 witness. -/
def wFit : Data := ⟨["f1", "f2"], [[0, 1], [1, 0]], [0, 1]⟩

/-- A three-row predict dataset for the C5 witness. -/
def wPre : Data := ⟨["p1", "p2", "p3"], [[0, 0], [1, 1], [0, 1]], [0, 1, 0]⟩

/-- Witness for C5 at `wEst`, `wFit`, `wPre`. -/
theorem fit_predict_alignment_witness :
    ((logistic.fit_predict wEst wFit wPre).1.length = wPre.len ∧
      (logistic.fit_predict wEst wFit wPre).2.length = wPre.len ∧
      (logistic.fit_predict wEst wFit wPre).1 = wPre.ids) ∧
    ((extratrees.fit_predict wEst wFit wPre).1.length = wPre.len ∧
      (extratrees.fit_predict wEst wFit wPre).2.length = wPre.len ∧
      (extratrees.fit_predict wEst wFit wPre).1 = wPre.ids) ∧
    ((randomforest.fit_predict wEst wFit wPre).1.length = wPre.len ∧
      (randomforest.fit_predict wEst wFit wPre).2.length = wPre.len ∧
      (randomforest.fit_predict wEst wFit wPre).1 = wPre.ids) ∧
    ((xgboost.fit_predict wEst wFit wPre).1.length = wPre.len ∧
      (xgboost.fit_predict wEst wFit wPre).2.length = wPre.len ∧
      (xgboost.fit_predict wEst wFit wPre).1 = wPre.ids) ∧
    ((logisticPCA.fit_predict wEst wFit wPre).1.length = wPre.len ∧
      (logisticPCA.fit_predict wEst wFit wPre).2.length = wPre.len ∧
      (logisticPCA.fit_predict wEst wFit wPre).1 = wPre.ids) ∧
    ((fifty.fit_predict wFit wPre).1.length = wPre.len ∧
      (fifty.fit_predict wFit wPre).2.length = wPre.len ∧
      (fifty.fit_predict wFit wPre).1 = wPre.ids) :=
  fit_predict_alignment wEst wFit wPre
    (fun fx fy px => by simp [wEst]) (by simp [wPre])

/-- C9: constructing the gradient-boosted adapter with the optional
xgboost library unavailable fails at construction time with the
missing-dependency message telling the user to install the library;
with the library available, construction succeeds and stores the
parameters. -/
theorem xgboost_init_dependency :
    ∀ (lr ss : ℚ) (md ne seed : Int),
      xgboost.init false lr ss md ne seed =
        Except.error "You must install xgboost to use this model" ∧
      xgboost.init true lr ss md ne seed =
        Except.ok { learning_rate := lr, subsample := ss, max_depth := md,
                    n_estimators := ne, seed := seed } :=
  fun _ _ _ _ _ => ⟨rfl, rfl⟩

/-- A concrete stand-in for the process's (randomized) string hash, used
only to instantiate closed statements; the integer-hash collision below
holds for every string hash because the string components coincide. -/
def demoStrHash : String → Int := fun _ => 0

/-- C7 counterexample: two `fifty` instances with the same class name and
the same serialized (empty) parameter dictionary, over predict datasets
with the same content hash but fit datasets whose content hashes differ
— `1` versus `2^61` — receive the *same* fingerprint from `Model.hash`,
because CPython hashes both ints to `1` (reduction modulo `2^61 - 1`).
So changing one of the three inputs does not always change the
fingerprint. -/
theorem model_hash_not_injective_cex :
    Model.hash demoStrHash 1 7 ⟨"fifty", some "\x7b\x7d"⟩ =
      Model.hash demoStrHash (2 ^ 61) 7 ⟨"fifty", some "\x7b\x7d"⟩ ∧
    (1 : Int) ≠ 2 ^ 61 :=
  ⟨rfl, by decide⟩

/-- C7 amended: two adapter instances with the same class name, the same
serialized parameter dictionary, and pairwise identical dataset content
hashes receive identical fingerprints from `Model.hash` (for whatever
string hash the process uses); and changing any one of the three changes
the tuple `h` from which the fingerprint is computed — though the final
`hash(h)` can collide for distinct tuples, as the counterexample shows. -/
theorem model_hash_fingerprint :
    (∀ (strHash : String → Int) (a b a' b' : Int) (m m' : ModelId),
      a = a' → b = b' → m = m' →
      Model.hash strHash a b m = Model.hash strHash a' b' m') ∧
    (∀ (a b a' b' : Int) (m m' : ModelId),
      Model.hashInput a b m = Model.hashInput a' b' m' →
      a = a' ∧ b = b' ∧ m = m') := by
  constructor
  · rintro strHash a b a' b' m m' rfl rfl rfl
    rfl
  · intro a b a' b' m m' h
    simp only [Model.hashInput, Prod.mk.injEq] at h
    obtain ⟨h1, h2, h3, h4⟩ := h
    exact ⟨h1, h2, by cases m; cases m'; simp_all⟩

/-- Witness for C7 at concrete equal instances. -/
theorem model_hash_fingerprint_witness :
    Model.hash demoStrHash 3 4 ⟨"logistic", some "lr"⟩ =
      Model.hash demoStrHash 3 4 ⟨"logistic", some "lr"⟩ ∧
    ((3 : Int) = 3 ∧ (4 : Int) = 4 ∧
      (⟨"logistic", some "lr"⟩ : ModelId) = ⟨"logistic", some "lr"⟩) :=
  ⟨model_hash_fingerprint.1 demoStrHash 3 4 3 4 ⟨"logistic", some "lr"⟩
      ⟨"logistic", some "lr"⟩ rfl rfl rfl,
   model_hash_fingerprint.2 3 4 3 4 ⟨"logistic", some "lr"⟩
      ⟨"logistic", some "lr"⟩ rfl⟩

/-- The string the `__repr__` loop accumulates: one
`name + "=" + str(value) + ", "` chunk per entry. -/
def joinItems : List (String × PyScalar) → String
  | [] => ""
  | nv :: rest => nv.1 ++ "=" ++ nv.2.pyStr ++ ", " ++ joinItems rest

theorem foldl_reprItems (ps : List (String × PyScalar)) (acc : String) :
    ps.foldl (fun a nv => a ++ nv.1 ++ "=" ++ nv.2.pyStr ++ ", ") acc =
      acc ++ joinItems ps := by
  induction ps generalizing acc with
  | nil => simp [joinItems, String.append_empty]
  | cons x xs ih =>
    rw [List.foldl_cons, ih]
    simp [joinItems, String.append_assoc]

theorem joinItems_eq_joinSep (x : String × PyScalar)
    (xs : List (String × PyScalar)) :
    joinItems (x :: xs) = joinSep ((x :: xs).map renderAssign) ++ ", " := by
  induction xs generalizing x with
  | nil => simp [joinItems, joinSep, renderAssign, String.append_empty]
  | cons y ys ih =>
    show joinItems (x :: y :: ys) = _
    rw [show joinItems (x :: y :: ys) =
          x.1 ++ "=" ++ x.2.pyStr ++ ", " ++ joinItems (y :: ys) from rfl,
        ih y]
    simp [joinSep, renderAssign, String.append_assoc]

theorem pySliceMinus2_append (s : String) : pySliceMinus2 (s ++ ", ") = s := by
  apply String.ext
  show ((s ++ ", ").data).dropLast.dropLast = s.data
  rw [String.data_append,
      show (", " : String).data = [',', ' '] from rfl,
      show s.data ++ [',', ' '] = (s.data ++ [',']) ++ [' '] by simp,
      List.dropLast_concat, List.dropLast_concat]

/-- C8 counterexample: for the `extratrees` adapter with its default
parameters, `__repr__` renders the assignments in the dictionary's
insertion order `ntrees, depth, nfeatures, seed`, which is not the sorted
name order `depth, nfeatures, ntrees, seed` the claim describes. -/
theorem repr_not_sorted_cex :
    extratreesDefault.reprStr =
      "extratrees(ntrees=100, depth=3, nfeatures=7, seed=0)" ∧
    extratreesDefault.reprSortedSpec =
      "extratrees(depth=3, nfeatures=7, ntrees=100, seed=0)" ∧
    extratreesDefault.reprStr ≠ extratreesDefault.reprSortedSpec :=
  ⟨rfl, rfl, by decide⟩

/-- C8 amended: `Model.__repr__` renders the class name followed by the
parameter assignments in the parameter dictionary's iteration (insertion)
order — not sorted — and renders just `ClassName()` when the instance has
no parameter dictionary or an empty one. -/
theorem repr_renders_insertion_order :
    ∀ m : PyModel, m.reprStr = m.reprInsertionOrder := by
  intro m
  obtain ⟨cn, p⟩ := m
  cases p with
  | none => rfl
  | some ps =>
    cases ps with
    | nil => rfl
    | cons x xs =>
      simp only [PyModel.reprStr, PyModel.reprInsertionOrder,
        List.length_cons]
      rw [if_neg (Nat.succ_ne_zero _), if_neg (Nat.succ_ne_zero _)]
      rw [foldl_reprItems, joinItems_eq_joinSep,
        show cn ++ "(" ++ (joinSep ((x :: xs).map renderAssign) ++ ", ") =
            (cn ++ "(" ++ joinSep ((x :: xs).map renderAssign)) ++ ", " by
          simp [String.append_assoc],
        pySliceMinus2_append]

end Numerox
